import Mathlib

/-!
Verification development for the tractive-sandbox repository.

Part 1 embeds the trail-analytics computation of
`src/backend/src/services/googleMapsService.ts`
(`calculateTrailStats`, `calculateHaversineDistance`, `toRadians`).
JS floating-point numbers are modelled as real numbers.

Part 2 embeds the upstream client of
`src/backend/src/services/tractiveService.ts`
(the axios 401 response interceptor, `authenticate`, `isSessionValid`,
`ensureAuthenticated`, and the domain operations) as a fuel-indexed
state-passing interpreter over an explicit script of upstream responses.
-/

namespace Tractive

/-- A position sample as consumed by `calculateTrailStats`:
`timestamp` is the epoch-millisecond value of `new Date(p.timestamp).getTime()`. -/
structure Position where
  timestamp : ℝ
  latitude : ℝ
  longitude : ℝ

/-- One elevation sample (`ElevationPoint.elevation`). -/
structure ElevationPoint where
  elevation : ℝ

/-- The result record of `calculateTrailStats`. -/
structure TrailStats where
  distance : ℝ
  duration : ℝ
  avgSpeed : ℝ
  elevationGain : ℝ
  elevationLoss : ℝ
  avgGrade : ℝ

/-- `GoogleMapsService.toRadians`: `degrees * (Math.PI / 180)`. -/
noncomputable def toRadians (degrees : ℝ) : ℝ :=
  degrees * (Real.pi / 180)

/-- `Math.atan2 y x` restricted to real inputs (standard quadrant-correct
arctangent; the embedded code only calls it with non-negative arguments). -/
noncomputable def atan2 (y x : ℝ) : ℝ :=
  if 0 < x then Real.arctan (y / x)
  else if x < 0 ∧ 0 ≤ y then Real.arctan (y / x) + Real.pi
  else if x < 0 ∧ y < 0 then Real.arctan (y / x) - Real.pi
  else if x = 0 ∧ 0 < y then Real.pi / 2
  else if x = 0 ∧ y < 0 then -(Real.pi / 2)
  else 0

/-- `GoogleMapsService.calculateHaversineDistance`, with
`R = 6371000` metres. -/
noncomputable def calculateHaversineDistance (lat1 lng1 lat2 lng2 : ℝ) : ℝ :=
  let R : ℝ := 6371000
  let dLat := toRadians (lat2 - lat1)
  let dLng := toRadians (lng2 - lng1)
  let a := Real.sin (dLat / 2) * Real.sin (dLat / 2) +
      Real.cos (toRadians lat1) * Real.cos (toRadians lat2) *
        Real.sin (dLng / 2) * Real.sin (dLng / 2)
  let c := 2 * atan2 (Real.sqrt a) (Real.sqrt (1 - a))
  R * c

/-- The distance-accumulation loop of `calculateTrailStats`
(`for i = 1; i < positions.length; i++ totalDistance += ...`):
`acc` is the running total, `prev` the position at index `i - 1`. -/
noncomputable def distAux (acc : ℝ) (prev : Position) : List Position → ℝ
  | [] => acc
  | p :: rest =>
      distAux (acc + calculateHaversineDistance prev.latitude prev.longitude
        p.latitude p.longitude) p rest

/-- The elevation loop of `calculateTrailStats`
(`if (elevDiff > 0) gain += elevDiff else loss += abs(elevDiff)`). -/
noncomputable def elevAux (gain loss prev : ℝ) : List ElevationPoint → ℝ × ℝ
  | [] => (gain, loss)
  | e :: rest =>
      let d := e.elevation - prev
      if 0 < d then elevAux (gain + d) loss e.elevation rest
      else elevAux gain (loss + |d|) e.elevation rest

/-- `GoogleMapsService.calculateTrailStats`.  The guard
`positions.length < 2` is the wildcard arm; the elevation block runs only
when `elevations` is present with `length > 1`. -/
noncomputable def calculateTrailStats (positions : List Position)
    (elevations : Option (List ElevationPoint)) : TrailStats :=
  match positions with
  | p0 :: p1 :: rest =>
      let totalDistance := distAux 0 p0 (p1 :: rest)
      let startTime := p0.timestamp
      let endTime := ((p1 :: rest).getLast (List.cons_ne_nil p1 rest)).timestamp
      let duration := (endTime - startTime) / 1000
      let avgSpeed := if 0 < duration then totalDistance / duration else 0
      let gl :=
        match elevations with
        | some (e0 :: e1 :: erest) => elevAux 0 0 e0.elevation (e1 :: erest)
        | _ => ((0 : ℝ), (0 : ℝ))
      let avgGrade :=
        if 0 < totalDistance then ((gl.1 - gl.2) / totalDistance) * 100 else 0
      { distance := totalDistance
        duration := duration
        avgSpeed := avgSpeed
        elevationGain := gl.1
        elevationLoss := gl.2
        avgGrade := avgGrade }
  | _ =>
      { distance := 0, duration := 0, avgSpeed := 0
        elevationGain := 0, elevationLoss := 0, avgGrade := 0 }

/-- Specification-side description of the distance: the sum, over
consecutive pairs of positions, of the haversine great-circle distance. -/
noncomputable def havSum (ps : List Position) : ℝ :=
  ((ps.zip ps.tail).map (fun pq =>
    calculateHaversineDistance pq.1.latitude pq.1.longitude
      pq.2.latitude pq.2.longitude)).sum

/-- Specification-side description of elevation gain: the sum of the
positive deltas between consecutive elevation samples. -/
noncomputable def gainSum (es : List ElevationPoint) : ℝ :=
  ((es.zip es.tail).map (fun pq => max (pq.2.elevation - pq.1.elevation) 0)).sum

/-- Specification-side description of elevation loss: the sum of the
absolute values of the negative deltas between consecutive samples. -/
noncomputable def lossSum (es : List ElevationPoint) : ℝ :=
  ((es.zip es.tail).map (fun pq => max (pq.1.elevation - pq.2.elevation) 0)).sum

/-- Shifting a position by a fixed coordinate offset. -/
def shiftPos (dLat dLng : ℝ) (p : Position) : Position :=
  { p with latitude := p.latitude + dLat, longitude := p.longitude + dLng }

lemma havSum_cons_cons (a b : Position) (l : List Position) :
    havSum (a :: b :: l) =
      calculateHaversineDistance a.latitude a.longitude b.latitude b.longitude
        + havSum (b :: l) := by
  simp [havSum]

lemma distAux_eq_havSum (ps : List Position) :
    ∀ (acc : ℝ) (prev : Position),
      distAux acc prev ps = acc + havSum (prev :: ps) := by
  induction ps with
  | nil => intro acc prev; simp [distAux, havSum]
  | cons p rest ih =>
      intro acc prev
      rw [distAux, ih, havSum_cons_cons]
      ring

lemma gainSum_cons_cons (a b : ElevationPoint) (l : List ElevationPoint) :
    gainSum (a :: b :: l) =
      max (b.elevation - a.elevation) 0 + gainSum (b :: l) := by
  simp [gainSum]

lemma lossSum_cons_cons (a b : ElevationPoint) (l : List ElevationPoint) :
    lossSum (a :: b :: l) =
      max (a.elevation - b.elevation) 0 + lossSum (b :: l) := by
  simp [lossSum]

lemma elevAux_eq (es : List ElevationPoint) :
    ∀ (g l : ℝ) (prev : ElevationPoint),
      elevAux g l prev.elevation es =
        (g + gainSum (prev :: es), l + lossSum (prev :: es)) := by
  induction es with
  | nil => intro g l prev; simp [elevAux, gainSum, lossSum]
  | cons e rest ih =>
      intro g l prev
      simp only [elevAux]
      split_ifs with hd
      · rw [ih, gainSum_cons_cons, lossSum_cons_cons]
        have h1 : max (e.elevation - prev.elevation) 0
            = e.elevation - prev.elevation := max_eq_left hd.le
        have h2 : max (prev.elevation - e.elevation) 0 = 0 :=
          max_eq_right (by linarith)
        rw [h1, h2]
        simp only [Prod.mk.injEq]; exact ⟨by ring, by ring⟩
      · rw [ih, gainSum_cons_cons, lossSum_cons_cons]
        push_neg at hd
        have h1 : max (e.elevation - prev.elevation) 0 = 0 :=
          max_eq_right hd
        have h2 : max (prev.elevation - e.elevation) 0
            = prev.elevation - e.elevation := max_eq_left (by linarith)
        have h3 : |e.elevation - prev.elevation|
            = prev.elevation - e.elevation := by
          rw [abs_of_nonpos (by linarith)]; ring
        rw [h1, h2, h3]
        simp only [Prod.mk.injEq]; exact ⟨by ring, by ring⟩

lemma atan2_one_zero : atan2 1 0 = Real.pi / 2 := by
  norm_num [atan2]

lemma atan2_zero_one : atan2 0 1 = 0 := by
  norm_num [atan2, Real.arctan_zero]

/-- Haversine distance between (0°, 0°) and (0°, 180°): half the equator. -/
lemma hav_equator : calculateHaversineDistance 0 0 0 180 = 6371000 * Real.pi := by
  have h1 : toRadians (180 - 0) / 2 = Real.pi / 2 := by rw [toRadians]; ring
  have h2 : toRadians (0 - 0) / 2 = 0 := by rw [toRadians]; ring
  have h3 : toRadians (0 : ℝ) = 0 := by rw [toRadians]; ring
  simp only [calculateHaversineDistance, h1, h2, h3]
  rw [Real.sin_zero, Real.sin_pi_div_two, Real.cos_zero]
  norm_num [Real.sqrt_one, Real.sqrt_zero, atan2_one_zero]
  ring

/-- The same two longitudes at latitude 90°: haversine distance 0. -/
lemma hav_shifted : calculateHaversineDistance 90 0 90 180 = 0 := by
  have h1 : toRadians (180 - 0) / 2 = Real.pi / 2 := by rw [toRadians]; ring
  have h2 : toRadians (90 - 90) / 2 = 0 := by rw [toRadians]; ring
  have h3 : toRadians (90 : ℝ) = Real.pi / 2 := by rw [toRadians]; ring
  simp only [calculateHaversineDistance, h1, h2, h3]
  rw [Real.sin_zero, Real.sin_pi_div_two, Real.cos_pi_div_two]
  norm_num [Real.sqrt_one, Real.sqrt_zero, atan2_zero_one]

lemma hav_lng_shift (lat1 lng1 lat2 lng2 o : ℝ) :
    calculateHaversineDistance lat1 (lng1 + o) lat2 (lng2 + o)
      = calculateHaversineDistance lat1 lng1 lat2 lng2 := by
  simp only [calculateHaversineDistance]
  have h : lng2 + o - (lng1 + o) = lng2 - lng1 := by ring
  rw [h]

lemma distAux_shift (o : ℝ) (ps : List Position) :
    ∀ (acc : ℝ) (prev : Position),
      distAux acc (shiftPos 0 o prev) (ps.map (shiftPos 0 o))
        = distAux acc prev ps := by
  induction ps with
  | nil => intro acc prev; rfl
  | cons p rest ih =>
      intro acc prev
      simp only [List.map_cons, distAux]
      have hlat1 : (shiftPos 0 o prev).latitude = prev.latitude := by
        simp [shiftPos]
      have hlng1 : (shiftPos 0 o prev).longitude = prev.longitude + o := by
        simp [shiftPos]
      have hlat2 : (shiftPos 0 o p).latitude = p.latitude := by
        simp [shiftPos]
      have hlng2 : (shiftPos 0 o p).longitude = p.longitude + o := by
        simp [shiftPos]
      rw [hlat1, hlng1, hlat2, hlng2, hav_lng_shift]
      exact ih _ p

/-- C4: for every position sequence with at least 2 positions, the
`distance` field of `calculateTrailStats` equals the sum, over consecutive
pairs of positions, of the haversine great-circle distance computed with
Earth radius 6371000 m. -/
theorem claim_C4_distance_is_haversine_sum (ps : List Position)
    (es : Option (List ElevationPoint)) (h : 2 ≤ ps.length) :
    (calculateTrailStats ps es).distance = havSum ps := by
  cases ps with
  | nil => simp at h
  | cons p0 ps' =>
      cases ps' with
      | nil => simp at h
      | cons p1 rest =>
          show distAux 0 p0 (p1 :: rest) = havSum (p0 :: p1 :: rest)
          rw [distAux_eq_havSum]
          ring

theorem claim_C4_distance_is_haversine_sum_witness :
    (calculateTrailStats [⟨0, 0, 0⟩, ⟨60000, 0, 180⟩] none).distance
      = havSum [⟨0, 0, 0⟩, ⟨60000, 0, 180⟩] :=
  claim_C4_distance_is_haversine_sum _ none (by simp)

/-- C7: with fewer than 2 positions (empty or singleton input),
`calculateTrailStats` returns the all-zero `TrailStats` record and raises
no error. -/
theorem claim_C7_short_input_all_zero (ps : List Position)
    (es : Option (List ElevationPoint)) (h : ps.length < 2) :
    calculateTrailStats ps es =
      { distance := 0, duration := 0, avgSpeed := 0
        elevationGain := 0, elevationLoss := 0, avgGrade := 0 } := by
  cases ps with
  | nil => rfl
  | cons p0 ps' =>
      cases ps' with
      | nil => rfl
      | cons p1 rest => simp only [List.length_cons] at h; omega

theorem claim_C7_short_input_all_zero_witness :
    calculateTrailStats [] none =
      { distance := 0, duration := 0, avgSpeed := 0
        elevationGain := 0, elevationLoss := 0, avgGrade := 0 } :=
  claim_C7_short_input_all_zero [] none (by simp)

/-- C5 counterexample: the claim quantifies over every call that supplies
an elevation sequence of at least 2 samples, asserting the gain is the sum
of positive deltas independently of the position count; but with fewer
than 2 positions the all-zero early return applies, so for positions `[]`
and elevations `[100, 150]` the code yields gain 0 while the sum of
positive deltas is 50. -/
theorem claim_C5_counterexample :
    (calculateTrailStats [] (some [⟨100⟩, ⟨150⟩])).elevationGain
      ≠ gainSum [⟨100⟩, ⟨150⟩] := by
  show (0 : ℝ) ≠ gainSum [⟨100⟩, ⟨150⟩]
  norm_num [gainSum]

/-- C5 (amended): provided the position sequence itself has at least 2
positions (otherwise the all-zero early return applies), the elevation
gain is the sum of the positive deltas and the loss the sum of the
absolute negative deltas between consecutive elevation samples, computed
over the elevation sequence alone; with no elevation sequence or fewer
than 2 samples both are 0. -/
theorem claim_C5_amended_elevation_sums (ps : List Position)
    (es : List ElevationPoint) (hp : 2 ≤ ps.length) (he : 2 ≤ es.length) :
    (calculateTrailStats ps (some es)).elevationGain = gainSum es ∧
    (calculateTrailStats ps (some es)).elevationLoss = lossSum es ∧
    (calculateTrailStats ps none).elevationGain = 0 ∧
    (calculateTrailStats ps none).elevationLoss = 0 ∧
    (∀ es2 : List ElevationPoint, es2.length < 2 →
      (calculateTrailStats ps (some es2)).elevationGain = 0 ∧
      (calculateTrailStats ps (some es2)).elevationLoss = 0) := by
  cases ps with
  | nil => simp at hp
  | cons p0 ps' =>
  cases ps' with
  | nil => simp at hp
  | cons p1 rest =>
  cases es with
  | nil => simp at he
  | cons e0 es' =>
  cases es' with
  | nil => simp at he
  | cons e1 erest =>
  refine ⟨?_, ?_, rfl, rfl, ?_⟩
  · show (elevAux 0 0 e0.elevation (e1 :: erest)).1 = _
    rw [elevAux_eq (e1 :: erest) 0 0 e0]
    ring
  · show (elevAux 0 0 e0.elevation (e1 :: erest)).2 = _
    rw [elevAux_eq (e1 :: erest) 0 0 e0]
    ring
  · intro es2 h2
    cases es2 with
    | nil => exact ⟨rfl, rfl⟩
    | cons f0 es2' =>
        cases es2' with
        | nil => exact ⟨rfl, rfl⟩
        | cons f1 f2 => simp only [List.length_cons] at h2; omega

theorem claim_C5_amended_elevation_sums_witness :
    (calculateTrailStats [⟨0, 0, 0⟩, ⟨60000, 0, 1⟩]
        (some [⟨100⟩, ⟨150⟩, ⟨120⟩, ⟨140⟩])).elevationGain = 70 ∧
    (calculateTrailStats [⟨0, 0, 0⟩, ⟨60000, 0, 1⟩]
        (some [⟨100⟩, ⟨150⟩, ⟨120⟩, ⟨140⟩])).elevationLoss = 30 := by
  obtain ⟨hg, hl, -, -, -⟩ :=
    claim_C5_amended_elevation_sums [⟨0, 0, 0⟩, ⟨60000, 0, 1⟩]
      [⟨100⟩, ⟨150⟩, ⟨120⟩, ⟨140⟩] (by simp) (by simp)
  refine ⟨?_, ?_⟩
  · rw [hg]; norm_num [gainSum]
  · rw [hl]; norm_num [lossSum]

/-- C6: for every input, `avgGrade` equals
`(elevationGain - elevationLoss) / distance * 100` when the computed
distance is positive, and 0 when the distance is 0. -/
theorem claim_C6_avgGrade_formula (ps : List Position)
    (es : Option (List ElevationPoint)) :
    (0 < (calculateTrailStats ps es).distance →
      (calculateTrailStats ps es).avgGrade =
        ((calculateTrailStats ps es).elevationGain
            - (calculateTrailStats ps es).elevationLoss)
          / (calculateTrailStats ps es).distance * 100) ∧
    ((calculateTrailStats ps es).distance = 0 →
      (calculateTrailStats ps es).avgGrade = 0) := by
  cases ps with
  | nil =>
      exact ⟨fun h => absurd h (lt_irrefl 0), fun _ => rfl⟩
  | cons p0 ps' =>
  cases ps' with
  | nil =>
      exact ⟨fun h => absurd h (lt_irrefl 0), fun _ => rfl⟩
  | cons p1 rest =>
      constructor
      · intro h
        have h' : 0 < distAux 0 p0 (p1 :: rest) := h
        show (if 0 < distAux 0 p0 (p1 :: rest) then _ else _) = _
        rw [if_pos h']
        rfl
      · intro h
        have h' : distAux 0 p0 (p1 :: rest) = 0 := h
        show (if 0 < distAux 0 p0 (p1 :: rest) then _ else _) = _
        rw [if_neg (by rw [h']; exact lt_irrefl 0)]

theorem claim_C6_avgGrade_formula_witness :
    (calculateTrailStats [] none).avgGrade = 0 ∧
    (calculateTrailStats [⟨0, 0, 0⟩, ⟨60000, 0, 180⟩] none).avgGrade =
      ((calculateTrailStats [⟨0, 0, 0⟩, ⟨60000, 0, 180⟩] none).elevationGain
          - (calculateTrailStats [⟨0, 0, 0⟩, ⟨60000, 0, 180⟩] none).elevationLoss)
        / (calculateTrailStats [⟨0, 0, 0⟩, ⟨60000, 0, 180⟩] none).distance
        * 100 := by
  constructor
  · exact (claim_C6_avgGrade_formula [] none).2 rfl
  · refine (claim_C6_avgGrade_formula _ none).1 ?_
    show (0 : ℝ) < 0 + calculateHaversineDistance 0 0 0 180
    rw [hav_equator]
    positivity

/-- C9 counterexample: shifting both coordinates of every position by the
fixed offset (+90° latitude, +0° longitude) changes the computed distance
from half the equator (6371000·π metres) to 0, far beyond any
floating-point tolerance. -/
theorem claim_C9_counterexample :
    (calculateTrailStats
        (([⟨0, 0, 0⟩, ⟨60000, 0, 180⟩] : List Position).map (shiftPos 90 0))
        none).distance
      ≠ (calculateTrailStats [⟨0, 0, 0⟩, ⟨60000, 0, 180⟩] none).distance := by
  have h1 : (([⟨0, 0, 0⟩, ⟨60000, 0, 180⟩] : List Position).map (shiftPos 90 0))
      = [⟨0, 90, 0⟩, ⟨60000, 90, 180⟩] := by
    simp [shiftPos]
  rw [h1]
  show (0 : ℝ) + calculateHaversineDistance 90 0 90 180
      ≠ 0 + calculateHaversineDistance 0 0 0 180
  rw [hav_shifted, hav_equator]
  have hp : (0 : ℝ) < 6371000 * Real.pi := by positivity
  simp only [add_zero, zero_add]
  exact ne_of_lt hp

/-- C9 (amended): the translation invariance holds for longitude offsets:
shifting every position's longitude by a fixed offset leaves the computed
distance unchanged exactly; a latitude shift can change it. -/
theorem claim_C9_amended_lng_translation (ps : List Position)
    (es : Option (List ElevationPoint)) (o : ℝ) :
    (calculateTrailStats (ps.map (shiftPos 0 o)) es).distance
      = (calculateTrailStats ps es).distance := by
  cases ps with
  | nil => rfl
  | cons p0 ps' =>
  cases ps' with
  | nil => rfl
  | cons p1 rest =>
      show distAux 0 (shiftPos 0 o p0) ((p1 :: rest).map (shiftPos 0 o))
          = distAux 0 p0 (p1 :: rest)
      exact distAux_shift o (p1 :: rest) 0 p0

/-!
Part 2: the upstream client of `tractiveService.ts`.

`TractiveService` holds `accessToken`, `userId` and `sessionExpiry`
(all initially null).  Every axios exchange passes through the response
interceptor installed in the constructor: on a rejection with
`error.response?.status === 401` while `this.accessToken` is truthy, it
awaits `authenticate()` (ignoring its result) and re-issues the original
request through the same instance — hence through the same interceptor.
The embedding is a state-passing interpreter over a script of upstream
responses; `fuel` bounds the interceptor's (otherwise unbounded)
recursion and is consumed only on that path, and a `Trace` records every
network exchange and every `authenticate()` invocation.
-/

/-- Payload of a successful `/auth/login` response
(`access_token`, `user_id`, `expires_in` seconds). -/
structure LoginData where
  access_token : String
  user_id : String
  expires_in : Int
  deriving DecidableEq

/-- An upstream HTTP exchange as issued by the service (method, path and
the parameters that appear in it). -/
inductive Req where
  | login
  | getPositions (trackerId : String) (timeFrom timeTo : Int)
  | getGeofences (trackerId : String)
  | postLive (trackerId : String) (active : Bool)
  | postLed (trackerId : String)
  | postBuzzer (trackerId : String)
  deriving DecidableEq

/-- A scripted upstream response: either the promise resolves (`ok`,
carrying the login payload when the endpoint returns one) or it rejects
with an optional HTTP status (`none` = transport error without status). -/
inductive RawResp where
  | ok (status : Nat) (login : Option LoginData)
  | httpErr (status : Option Nat)
  deriving DecidableEq

/-- The mutable fields of `TractiveService`. -/
structure SvcState where
  accessToken : Option String
  userId : Option String
  sessionExpiry : Option Int
  deriving DecidableEq

/-- Observable effects of a run: network exchanges in order, and the
number of `authenticate()` invocations. -/
structure Trace where
  requests : List Req
  authCalls : Nat
  deriving DecidableEq

/-- State after the constructor: all session fields null. -/
def initialState : SvcState := ⟨none, none, none⟩

/-- JS truthiness of `this.accessToken` (null or empty string is falsy). -/
def tokenTruthy : Option String → Bool
  | none => false
  | some s => s != ""

/-- JS truthiness of `this.sessionExpiry` (null or 0 is falsy). -/
def expiryTruthy : Option Int → Bool
  | none => false
  | some e => e != 0

/-- `TractiveService.isSessionValid`:
`!!(this.accessToken && this.sessionExpiry && Date.now() < this.sessionExpiry)`. -/
def isSessionValid (now : Int) (st : SvcState) : Bool :=
  tokenTruthy st.accessToken && expiryTruthy st.sessionExpiry &&
    (match st.sessionExpiry with
     | none => false
     | some e => decide (now < e))

/-- Outcome of one axios call after interceptor handling: the promise
resolved (with status and data) or rejected (with the error's status). -/
inductive ReqOutcome where
  | resolved (status : Nat) (login : Option LoginData)
  | rejected (status : Option Nat)
  deriving DecidableEq

/-- One raw HTTP exchange consumes the next scripted response; an
exhausted script behaves as a transport error without a status. -/
def nextResp : List RawResp → RawResp × List RawResp
  | [] => (RawResp.httpErr none, [])
  | r :: rest => (r, rest)

/-- Record one network exchange in the trace. -/
def recordReq (tr : Trace) (rq : Req) : Trace :=
  { tr with requests := tr.requests ++ [rq] }

mutual

/-- `this.axiosInstance.request(...)` including the response interceptor:
on a 401 rejection while a token is held, run `authenticate()` (its result
is ignored) and re-issue the original request through the same
interceptor.  `fuel` is consumed only on that retry path; with fuel 0 the
model rejects instead of recursing (the real code recurses without
bound). -/
def request (now : Int) : Nat → Req → SvcState → List RawResp → Trace →
    ReqOutcome × SvcState × List RawResp × Trace
  | fuel, rq, st, script, tr =>
      let (resp, script1) := nextResp script
      let tr1 := recordReq tr rq
      match resp with
      | RawResp.ok s d => (ReqOutcome.resolved s d, st, script1, tr1)
      | RawResp.httpErr s? =>
          if s? = some 401 ∧ tokenTruthy st.accessToken then
            match fuel with
            | 0 => (ReqOutcome.rejected s?, st, script1, tr1)
            | f + 1 =>
                let (_, st2, script2, tr2) := authenticate now f st script1 tr1
                request now f rq st2 script2 tr2
          else (ReqOutcome.rejected s?, st, script1, tr1)

/-- `TractiveService.authenticate`: POST `/auth/login`; on a resolved
response whose data carries a truthy `access_token`, replace the session
fields (`sessionExpiry = Date.now() + expires_in * 1000`) and return
true; otherwise (falsy token, or any rejection reaching the catch block)
return false with the state untouched.  With fuel 0 the model returns
false without issuing the login call (a model cutoff only). -/
def authenticate (now : Int) : Nat → SvcState → List RawResp → Trace →
    Bool × SvcState × List RawResp × Trace
  | 0, st, script, tr =>
      (false, st, script, { tr with authCalls := tr.authCalls + 1 })
  | f + 1, st, script, tr =>
      let tr1 := { tr with authCalls := tr.authCalls + 1 }
      match request now f Req.login st script tr1 with
      | (ReqOutcome.resolved _ d, st1, script1, tr2) =>
          match d with
          | some ld =>
              if ld.access_token ≠ "" then
                (true,
                 { accessToken := some ld.access_token,
                   userId := some ld.user_id,
                   sessionExpiry := some (now + ld.expires_in * 1000) },
                 script1, tr2)
              else (false, st1, script1, tr2)
          | none => (false, st1, script1, tr2)
      | (ReqOutcome.rejected _, st1, script1, tr2) => (false, st1, script1, tr2)

end

/-- `TractiveService.ensureAuthenticated`: authenticate unless the session
is valid; a failed authentication throws
`Failed to authenticate with Tractive API`. -/
def ensureAuthenticated (now : Int) (fuel : Nat) (st : SvcState)
    (script : List RawResp) (tr : Trace) :
    Except String Unit × SvcState × List RawResp × Trace :=
  if isSessionValid now st then (Except.ok (), st, script, tr)
  else
    match authenticate now fuel st script tr with
    | (true, st1, script1, tr1) => (Except.ok (), st1, script1, tr1)
    | (false, st1, script1, tr1) =>
        (Except.error "Failed to authenticate with Tractive API",
         st1, script1, tr1)

/-- `TractiveService.getLatestPosition`: ensure authentication, then GET
`/tracker/{id}/positions` with the last-24-hours window; any rejection
reaching the catch block becomes `Failed to fetch latest position`.
The response payload is not modelled (claims only concern control flow). -/
def getLatestPosition (now : Int) (fuel : Nat) (trackerId : String)
    (st : SvcState) (script : List RawResp) (tr : Trace) :
    Except String Unit × SvcState × List RawResp × Trace :=
  match ensureAuthenticated now fuel st script tr with
  | (Except.error e, st1, script1, tr1) => (Except.error e, st1, script1, tr1)
  | (Except.ok _, st1, script1, tr1) =>
      match request now fuel
          (Req.getPositions trackerId (now - 24 * 60 * 60 * 1000) now)
          st1 script1 tr1 with
      | (ReqOutcome.resolved _ _, st2, script2, tr2) =>
          (Except.ok (), st2, script2, tr2)
      | (ReqOutcome.rejected _, st2, script2, tr2) =>
          (Except.error "Failed to fetch latest position", st2, script2, tr2)

/-- `TractiveService.getPositionHistory`: ensure authentication, then GET
`/tracker/{id}/positions` with the given `from`/`to` window — the
arguments are forwarded as-is, with no range check anywhere. -/
def getPositionHistory (now : Int) (fuel : Nat) (trackerId : String)
    (timeFrom timeTo : Int) (st : SvcState) (script : List RawResp)
    (tr : Trace) : Except String Unit × SvcState × List RawResp × Trace :=
  match ensureAuthenticated now fuel st script tr with
  | (Except.error e, st1, script1, tr1) => (Except.error e, st1, script1, tr1)
  | (Except.ok _, st1, script1, tr1) =>
      match request now fuel (Req.getPositions trackerId timeFrom timeTo)
          st1 script1 tr1 with
      | (ReqOutcome.resolved _ _, st2, script2, tr2) =>
          (Except.ok (), st2, script2, tr2)
      | (ReqOutcome.rejected _, st2, script2, tr2) =>
          (Except.error "Failed to fetch position history", st2, script2, tr2)

/-- `TractiveService.getGeofences`. -/
def getGeofences (now : Int) (fuel : Nat) (trackerId : String)
    (st : SvcState) (script : List RawResp) (tr : Trace) :
    Except String Unit × SvcState × List RawResp × Trace :=
  match ensureAuthenticated now fuel st script tr with
  | (Except.error e, st1, script1, tr1) => (Except.error e, st1, script1, tr1)
  | (Except.ok _, st1, script1, tr1) =>
      match request now fuel (Req.getGeofences trackerId) st1 script1 tr1 with
      | (ReqOutcome.resolved _ _, st2, script2, tr2) =>
          (Except.ok (), st2, script2, tr2)
      | (ReqOutcome.rejected _, st2, script2, tr2) =>
          (Except.error "Failed to fetch geofences", st2, script2, tr2)

/-- `TractiveService.toggleLiveTracking`: returns
`response.status === 200`. -/
def toggleLiveTracking (now : Int) (fuel : Nat) (trackerId : String)
    (active : Bool) (st : SvcState) (script : List RawResp) (tr : Trace) :
    Except String Bool × SvcState × List RawResp × Trace :=
  match ensureAuthenticated now fuel st script tr with
  | (Except.error e, st1, script1, tr1) => (Except.error e, st1, script1, tr1)
  | (Except.ok _, st1, script1, tr1) =>
      match request now fuel (Req.postLive trackerId active) st1 script1 tr1 with
      | (ReqOutcome.resolved s _, st2, script2, tr2) =>
          (Except.ok (s == 200), st2, script2, tr2)
      | (ReqOutcome.rejected _, st2, script2, tr2) =>
          (Except.error "Failed to toggle live tracking", st2, script2, tr2)

/-- `TractiveService.triggerLED`: returns `response.status === 200`. -/
def triggerLED (now : Int) (fuel : Nat) (trackerId : String)
    (st : SvcState) (script : List RawResp) (tr : Trace) :
    Except String Bool × SvcState × List RawResp × Trace :=
  match ensureAuthenticated now fuel st script tr with
  | (Except.error e, st1, script1, tr1) => (Except.error e, st1, script1, tr1)
  | (Except.ok _, st1, script1, tr1) =>
      match request now fuel (Req.postLed trackerId) st1 script1 tr1 with
      | (ReqOutcome.resolved s _, st2, script2, tr2) =>
          (Except.ok (s == 200), st2, script2, tr2)
      | (ReqOutcome.rejected _, st2, script2, tr2) =>
          (Except.error "Failed to trigger LED", st2, script2, tr2)

/-- `TractiveService.triggerBuzzer`: returns `response.status === 200`. -/
def triggerBuzzer (now : Int) (fuel : Nat) (trackerId : String)
    (st : SvcState) (script : List RawResp) (tr : Trace) :
    Except String Bool × SvcState × List RawResp × Trace :=
  match ensureAuthenticated now fuel st script tr with
  | (Except.error e, st1, script1, tr1) => (Except.error e, st1, script1, tr1)
  | (Except.ok _, st1, script1, tr1) =>
      match request now fuel (Req.postBuzzer trackerId) st1 script1 tr1 with
      | (ReqOutcome.resolved s _, st2, script2, tr2) =>
          (Except.ok (s == 200), st2, script2, tr2)
      | (ReqOutcome.rejected _, st2, script2, tr2) =>
          (Except.error "Failed to trigger buzzer", st2, script2, tr2)

lemma request_ok (now : Int) (fuel : Nat) (rq : Req) (st : SvcState)
    (s : Nat) (d : Option LoginData) (rest : List RawResp) (tr : Trace) :
    request now fuel rq st (RawResp.ok s d :: rest) tr
      = (ReqOutcome.resolved s d, st, rest, recordReq tr rq) := by
  rw [request]
  simp [nextResp]

lemma request_401_no_token (now : Int) (fuel : Nat) (rq : Req)
    (st : SvcState) (rest : List RawResp) (tr : Trace)
    (h : st.accessToken = none) :
    request now fuel rq st (RawResp.httpErr (some 401) :: rest) tr
      = (ReqOutcome.rejected (some 401), st, rest, recordReq tr rq) := by
  rw [request]
  simp [nextResp, tokenTruthy, h]

/-- C10: the 401-retry interceptor re-authenticates only when an access
token is already stored; a 401 received while no token is held — in
particular a 401 rejection of the login request itself — is propagated to
the caller unchanged, with no re-authentication and no retry (the state,
the remaining script and the auth-call count are untouched, and exactly
one exchange was issued). -/
theorem claim_C10_401_without_token_propagates (now : Int) (fuel : Nat)
    (rq : Req) (st : SvcState) (rest : List RawResp) (tr : Trace)
    (h : st.accessToken = none) :
    request now fuel rq st (RawResp.httpErr (some 401) :: rest) tr
      = (ReqOutcome.rejected (some 401), st, rest, recordReq tr rq) ∧
    authenticate now (fuel + 1) st (RawResp.httpErr (some 401) :: rest) tr
      = (false, st, rest,
         recordReq { tr with authCalls := tr.authCalls + 1 } Req.login) := by
  constructor
  · exact request_401_no_token now fuel rq st rest tr h
  · simp only [authenticate]
    rw [request_401_no_token now fuel Req.login st rest _ h]

theorem claim_C10_401_without_token_propagates_witness :
    request 0 3 (Req.postLed "t") initialState
        [RawResp.httpErr (some 401)] ⟨[], 0⟩
      = (ReqOutcome.rejected (some 401), initialState, [],
         recordReq ⟨[], 0⟩ (Req.postLed "t")) :=
  (claim_C10_401_without_token_propagates 0 3 (Req.postLed "t")
    initialState [] ⟨[], 0⟩ rfl).1

/-- C8: a session is valid exactly when the stored token is non-empty and
the current time is strictly before the stored expiry (given a
non-negative clock, as `Date.now()` always is); while valid,
`ensureAuthenticated` returns with the stored token untouched and issues
no network call; when invalid (expired or unauthenticated) it invokes
`authenticate` once, and a successful login installs the refreshed
token. -/
theorem claim_C8_valid_session_reuses_token (now : Int) (hnow : 0 ≤ now)
    (st : SvcState) (fuel : Nat) (script : List RawResp) (tr : Trace) :
    (isSessionValid now st = true ↔
      ((∃ t, st.accessToken = some t ∧ t ≠ "") ∧
       (∃ e, st.sessionExpiry = some e ∧ now < e))) ∧
    (isSessionValid now st = true →
      ensureAuthenticated now fuel st script tr
        = (Except.ok (), st, script, tr)) ∧
    (∀ (ld : LoginData) (rest : List RawResp),
      isSessionValid now st = false → ld.access_token ≠ "" →
      ensureAuthenticated now (fuel + 1) st
          (RawResp.ok 200 (some ld) :: rest) tr
        = (Except.ok (),
           { accessToken := some ld.access_token,
             userId := some ld.user_id,
             sessionExpiry := some (now + ld.expires_in * 1000) },
           rest,
           { requests := tr.requests ++ [Req.login],
             authCalls := tr.authCalls + 1 })) := by
  refine ⟨?_, ?_, ?_⟩
  · obtain ⟨tok, uid, exp⟩ := st
    cases tok with
    | none => simp [isSessionValid, tokenTruthy]
    | some t =>
        cases exp with
        | none => simp [isSessionValid, tokenTruthy, expiryTruthy]
        | some e =>
            simp only [isSessionValid, tokenTruthy, expiryTruthy,
              Bool.and_eq_true, bne_iff_ne, decide_eq_true_eq,
              Option.some.injEq]
            constructor
            · rintro ⟨⟨h1, _⟩, h3⟩
              exact ⟨⟨t, rfl, h1⟩, ⟨e, rfl, h3⟩⟩
            · rintro ⟨⟨t', ht', h1⟩, ⟨e', he', h3⟩⟩
              cases ht'
              cases he'
              exact ⟨⟨h1, by omega⟩, h3⟩
  · intro hv
    simp [ensureAuthenticated, hv]
  · intro ld rest hv hne
    simp only [ensureAuthenticated, hv, Bool.false_eq_true, if_false]
    simp only [authenticate]
    rw [request]
    simp [nextResp, recordReq, hne]

theorem claim_C8_valid_session_reuses_token_witness :
    ensureAuthenticated 5 3 ⟨some "tok", some "u", some 10⟩ [] ⟨[], 0⟩
      = (Except.ok (), ⟨some "tok", some "u", some 10⟩, [], ⟨[], 0⟩) :=
  (claim_C8_valid_session_reuses_token 5 (by norm_num)
    ⟨some "tok", some "u", some 10⟩ 3 [] ⟨[], 0⟩).2.1 (by decide)

/-- C2 counterexample: `getPositionHistory` with `from > to` (here
500 > 100) on a valid session issues the upstream positions request with
the inverted window and succeeds: it neither fails with an invalid-range
error nor refrains from the network call. -/
theorem claim_C2_counterexample :
    getPositionHistory 1000 5 "t1" 500 100 ⟨some "tok", some "u", some 2000⟩
        [RawResp.ok 200 none] ⟨[], 0⟩
      = (Except.ok (), ⟨some "tok", some "u", some 2000⟩, [],
         ⟨[Req.getPositions "t1" 500 100], 0⟩) := by
  rfl

/-- C2 (amended): `getPositionHistory` performs no range validation; for
every `from > to` it forwards the given (inverted) window upstream, and
with a valid session and a resolving upstream response the call succeeds,
with no invalid-range failure at any point. -/
theorem claim_C2_amended_no_range_validation (now : Int) (fuel : Nat)
    (trackerId : String) (timeFrom timeTo : Int) (_hlt : timeTo < timeFrom)
    (st : SvcState) (hv : isSessionValid now st = true) (s : Nat)
    (d : Option LoginData) (rest : List RawResp) (tr : Trace) :
    getPositionHistory now fuel trackerId timeFrom timeTo st
        (RawResp.ok s d :: rest) tr
      = (Except.ok (), st, rest,
         recordReq tr (Req.getPositions trackerId timeFrom timeTo)) := by
  simp only [getPositionHistory, ensureAuthenticated]
  rw [if_pos hv]
  simp [request_ok, recordReq]

theorem claim_C2_amended_no_range_validation_witness :
    getPositionHistory 1000 5 "t2" 500 100 ⟨some "tok", some "u", some 2000⟩
        [RawResp.ok 200 none] ⟨[], 0⟩
      = (Except.ok (), ⟨some "tok", some "u", some 2000⟩, [],
         recordReq ⟨[], 0⟩ (Req.getPositions "t2" 500 100)) :=
  claim_C2_amended_no_range_validation 1000 5 "t2" 500 100 (by norm_num)
    ⟨some "tok", some "u", some 2000⟩ (by decide) 200 none [] ⟨[], 0⟩

/-- C3 counterexample: `triggerLED` called with the empty tracker id on a
valid session sends the command upstream (path `/tracker//led`) and
returns success: no Fatal precondition failure, and the request is
issued. -/
theorem claim_C3_counterexample :
    triggerLED 1000 5 "" ⟨some "tok", some "u", some 2000⟩
        [RawResp.ok 200 none] ⟨[], 0⟩
      = (Except.ok true, ⟨some "tok", some "u", some 2000⟩, [],
         ⟨[Req.postLed ""], 0⟩) := by
  rfl

/-- C3 (amended): none of the six tracker operations validates the id:
with a valid session each of them issues its upstream request with the
empty tracker id embedded in the path, instead of failing as a
precondition violation before any network call. -/
theorem claim_C3_amended_no_id_validation (now : Int) (fuel : Nat)
    (st : SvcState) (hv : isSessionValid now st = true) (s : Nat)
    (d : Option LoginData) (rest : List RawResp) (tr : Trace)
    (timeFrom timeTo : Int) (active : Bool) :
    (getLatestPosition now fuel "" st
        (RawResp.ok s d :: rest) tr).2.2.2.requests
      = tr.requests ++ [Req.getPositions "" (now - 24 * 60 * 60 * 1000) now] ∧
    (getPositionHistory now fuel "" timeFrom timeTo st
        (RawResp.ok s d :: rest) tr).2.2.2.requests
      = tr.requests ++ [Req.getPositions "" timeFrom timeTo] ∧
    (getGeofences now fuel "" st
        (RawResp.ok s d :: rest) tr).2.2.2.requests
      = tr.requests ++ [Req.getGeofences ""] ∧
    (toggleLiveTracking now fuel "" active st
        (RawResp.ok s d :: rest) tr).2.2.2.requests
      = tr.requests ++ [Req.postLive "" active] ∧
    (triggerLED now fuel "" st
        (RawResp.ok s d :: rest) tr).2.2.2.requests
      = tr.requests ++ [Req.postLed ""] ∧
    (triggerBuzzer now fuel "" st
        (RawResp.ok s d :: rest) tr).2.2.2.requests
      = tr.requests ++ [Req.postBuzzer ""] := by
  refine ⟨?_, ?_, ?_, ?_, ?_, ?_⟩ <;>
  · simp only [getLatestPosition, getPositionHistory, getGeofences,
      toggleLiveTracking, triggerLED, triggerBuzzer, ensureAuthenticated]
    rw [if_pos hv]
    simp [request_ok, recordReq]

theorem claim_C3_amended_no_id_validation_witness :
    (triggerBuzzer 1000 5 "" ⟨some "tok", some "u", some 2000⟩
        [RawResp.ok 200 none] ⟨[], 0⟩).2.2.2.requests
      = [Req.postBuzzer ""] := by
  have h := (claim_C3_amended_no_id_validation 1000 5
    ⟨some "tok", some "u", some 2000⟩ (by decide) 200 none [] ⟨[], 0⟩
    500 100 true).2.2.2.2.2
  simpa using h

/-- C1: evaluation of the code at the claim's failing input.  With a
token held, a 401 answered by a forced re-authentication and a retried
request that fails 401 again does not surface: the retry passes through
the same response interceptor, which re-authenticates once per 401
without bound.  Running `triggerLED` against a script answering 401 to
the original request and to each retry shows three `authenticate()`
invocations for a single operation, where the claim allows exactly one
with the second Auth failure surfacing immediately. -/
theorem claim_C1_second_auth_failure_not_surfaced :
    (triggerLED 1000 10 "t" ⟨some "tok0", some "u", some 2000⟩
        [RawResp.httpErr (some 401), RawResp.ok 200 (some ⟨"tok1", "u", 60⟩),
         RawResp.httpErr (some 401), RawResp.ok 200 (some ⟨"tok2", "u", 60⟩),
         RawResp.httpErr (some 401)] ⟨[], 0⟩).2.2.2.authCalls = 3 := by
  rfl

end Tractive
